import Mathlib

/-! Verification of the aegis-rs vault decryption pipeline (`src/lib.rs` and
`src/vault/crypto.rs`): the vault/header data model, scrypt key derivation,
master-key slot resolution, and database extraction. The external library
functions the source calls (scrypt, AES-256-GCM, serde_json, base64, UTF-8
decoding) are modelled as an abstract interface, so the theorems hold for
every implementation of that interface; hex decoding is modelled concretely
because the slot-resolution control flow branches on it. -/

namespace Aegis

/-- Hexadecimal value of one digit character, as accepted by the `hex` crate
(digits `0-9`, `a-f`, `A-F`). -/
def hexVal (c : Char) : Option Nat :=
  if '0' ≤ c ∧ c ≤ '9' then some (c.toNat - 48)
  else if 'a' ≤ c ∧ c ≤ 'f' then some (c.toNat - 87)
  else if 'A' ≤ c ∧ c ≤ 'F' then some (c.toNat - 55)
  else none

/-- Hex decoding of a character list: `hex::FromHex for Vec<u8>` fails on an
odd-length string or on any non-hex-digit character, and otherwise turns each
digit pair into one byte. -/
def fromHexChars : List Char → Option (List Nat)
  | [] => some []
  | [_] => none
  | c1 :: c2 :: rest =>
    match hexVal c1, hexVal c2, fromHexChars rest with
    | some hi, some lo, some tl => some ((16 * hi + lo) :: tl)
    | _, _, _ => none

/-- Decode a hex string to bytes (`Vec::from_hex` in the source). -/
def fromHex (s : String) : Option (List Nat) :=
  fromHexChars s.data

/-- Floor of the base-2 logarithm, via a fuel-driven halving loop. This embeds
the source's `(slot.n as f32).log2() as u8` conversion in `derive_key`
(crypto.rs line 72): a truncating (flooring) cast of the float logarithm,
which on the inputs considered here equals the integer floor of `log2`. -/
def log2fuel : Nat → Nat → Nat
  | 0, _ => 0
  | fuel + 1, n => if n ≥ 2 then log2fuel fuel (n / 2) + 1 else 0

/-- Floor of `log2 n`, with `log2Floor 0 = 0` (Rust's saturating float-to-int
cast sends `log2(0) = -inf` to `0`). -/
def log2Floor (n : Nat) : Nat := log2fuel n n

/-- AES-GCM encryption parameters (`KeyParams`, crypto.rs lines 15-19). -/
structure KeyParams where
  nonce : String
  tag : String
  deriving DecidableEq

/-- Password slot parameters: scrypt parameters plus salt (`PasswordSlot`,
crypto.rs lines 22-28). The `u32` wire fields are modelled as `Nat`. -/
structure PasswordSlot where
  n : Nat
  r : Nat
  p : Nat
  salt : String
  deriving DecidableEq

/-- Master key decryption slot types supported by Aegis (`SlotType`,
crypto.rs lines 31-40). -/
inductive SlotType where
  | raw
  | password (ps : PasswordSlot)
  | biometric
  deriving DecidableEq

/-- Discriminant test corresponding to the resolution loop's
`matches!(s.slot_type, SlotType::Password(_))` filter. -/
def SlotType.isPassword : SlotType → Bool
  | .password _ => true
  | _ => false

/-- Master key decryption slot (`Slot`, crypto.rs lines 43-50). -/
structure Slot where
  slot_type : SlotType
  key : String
  key_params : KeyParams
  deriving DecidableEq

/-- Database encryption header (`Header`, crypto.rs lines 53-59). -/
structure Header where
  slots : Option (List Slot)
  params : Option KeyParams
  deriving DecidableEq

/-- Local slot-resolution error type (`DecryptionError`, crypto.rs
lines 61-64). -/
inductive DecryptionError where
  | incorrectPassword
  | paramError (msg : String)
  deriving DecidableEq

/-- Modelled from the spec: one TOTP entry (`Entry`, lib.rs lines 30-39). Its
`type` and `info` fields have types from the `totp` module, which is not under
src/; per the spec they are opaque to this core, so both are modelled as raw
strings. -/
structure Entry where
  etype : String
  name : String
  issuer : String
  info : String
  deriving DecidableEq

/-- Database containing TOTP entries (`Database`, lib.rs lines 21-26). -/
structure Database where
  version : Nat
  entries : List Entry
  deriving DecidableEq

/-- Modelled from the spec: the `crate::vault::VaultDatabase` payload matched
by `decrypt` in crypto.rs is not under src/; per spec section 3 the `db` field
is either a base64 ciphertext string (encrypted) or an inline database
document (plaintext). The lib.rs snapshot stores the payload as one raw
string (`db: String`), which `VaultDatabase.raw` recovers. -/
inductive VaultDatabase where
  | encrypted (db : String)
  | plain (db : String)
  deriving DecidableEq

/-- Raw string payload of the `db` field, as held by the `db: String` field of
the lib.rs `Vault` and parsed by its plaintext path. -/
def VaultDatabase.raw : VaultDatabase → String
  | .encrypted s => s
  | .plain s => s

/-- Aegis vault backup (`Vault`, lib.rs lines 43-50). -/
structure Vault where
  version : Nat
  header : Header
  db : VaultDatabase
  deriving DecidableEq

/-- Modelled from the spec: `Header::is_set`, called by `Vault::is_encrypted`
(lib.rs line 54), is not under src/; per spec section 4.1 `is_encrypted()` is
true iff both `slots` and `params` are present. -/
def Header.is_set (h : Header) : Bool :=
  h.slots.isSome && h.params.isSome

/-- A vault is encrypted iff its header's key-slot fields are set
(`Vault::is_encrypted`, lib.rs lines 52-56). -/
def Vault.is_encrypted (v : Vault) : Bool :=
  v.header.is_set

/-- Interface model of the external library functions called by the pipeline:
`scryptHash` is the scrypt KDF `Scrypt.hash_password_customized` on password
bytes, salt bytes and parameters (deterministic per spec section 4.2; on
parameters accepted by `Params::new` it always yields a hash, so the source's
`.hash.ok_or(..)` fallback has no failing case); `aesGcmDecrypt` is
`Aes256Gcm::decrypt` on key, nonce and ciphertext-with-appended-tag, where
`none` is AES-GCM tag verification failure (`aead::Error`); `parseVault` and
`parseDatabase` are `serde_json::from_str` at the two result types;
`b64Decode` is `general_purpose::STANDARD.decode`; `utf8Decode` is
`String::from_utf8`. Theorems quantify over every implementation of this
interface. -/
structure Externals where
  scryptHash : List Nat → List Nat → Nat → Nat → Nat → List Nat
  aesGcmDecrypt : List Nat → List Nat → List Nat → Option (List Nat)
  parseVault : String → Option Vault
  parseDatabase : String → Option Database
  b64Decode : String → Option (List Nat)
  utf8Decode : List Nat → Option String

/-- Modelled from the spec: validity test of the external scrypt crate's
`Params::new(log_n, r, p, 32)` (spec section 4.2: the KDF "rejects the
parameters (e.g., cost/parallelism out of range)"): the cost exponent must be
positive and below the word size, and `r`, `p` positive with `r * p` below
`2^30`. -/
def scryptParamsOk (log_n r p : Nat) : Bool :=
  decide (0 < log_n ∧ log_n < 64 ∧ 0 < r ∧ 0 < p ∧ r * p < 1073741824)

/-- Modelled from the spec's KDF interface: `SaltString::encode_b64` followed
by `password_hash` salt validation accepts a byte salt iff its unpadded base64
encoding has between 4 and 64 characters. -/
def saltEncodeOk (saltBytes : List Nat) : Bool :=
  decide (4 ≤ (saltBytes.length * 4 + 2) / 3 ∧ (saltBytes.length * 4 + 2) / 3 ≤ 64)

/-- Derive master key from password (`derive_key`, crypto.rs lines 67-80):
hex-decode the salt, base64-encode it into a salt string, convert the wire
work factor `n` with the truncating cast `(slot.n as f32).log2() as u8`
(embedded as `log2Floor`), build `scrypt::Params` and run the KDF. Error
strings stand for the library errors propagated by `?`, with their formatted
`Display` suffixes elided. -/
def derive_key (E : Externals) (password : List Nat) (slot : PasswordSlot) :
    Except String (List Nat) :=
  match fromHex slot.salt with
  | none => .error "Failed to decode salt hex"
  | some salt_bytes =>
    if saltEncodeOk salt_bytes then
      if scryptParamsOk (log2Floor slot.n) slot.r slot.p then
        .ok (E.scryptHash password salt_bytes (log2Floor slot.n) slot.r slot.p)
      else .error "invalid scrypt parameters"
    else .error "invalid salt encoding"

/-- Attempt to recover the master key from one slot (`decrypt_master_key`,
crypto.rs lines 82-110): non-password slots are rejected with a parameter
error; then the derived key decrypts the slot's wrapped key ciphertext with
its tag appended; `none` from the cipher is tag verification failure, reported
as `IncorrectPassword`. -/
def decrypt_master_key (E : Externals) (password : List Nat) (slot : Slot) :
    Except DecryptionError (List Nat) :=
  match slot.slot_type with
  | .password ps =>
    match derive_key E password ps with
    | .error e => .error (.paramError ("Failed to derive key: " ++ e))
    | .ok derived_key =>
      match fromHex slot.key_params.nonce with
      | none => .error (.paramError "Failed to decode nonce")
      | some key_nonce =>
        match fromHex slot.key with
        | none => .error (.paramError "Failed to decode master key cipher")
        | some master_key_cipher =>
          match fromHex slot.key_params.tag with
          | none => .error (.paramError "Failed to decode tag")
          | some tag =>
            match E.aesGcmDecrypt derived_key key_nonce (master_key_cipher ++ tag) with
            | none => .error .incorrectPassword
            | some master_key => .ok master_key
  | _ => .error (.paramError "Slot is not a password slot")

/-- Body of the slot resolution loop over the already-filtered slot list
(the `for` loop of `try_decrypt_master_key`, crypto.rs lines 114-133). The
first component collects the messages printed by `eprintln!` for slots skipped
on `ParamError`; `IncorrectPassword` slots are skipped silently; the first
success returns immediately. -/
def tryDecryptLoop (E : Externals) (password : List Nat) :
    List Slot → List String × Except String (List Nat)
  | [] => ([], .error "Failed to decrypt master key")
  | slot :: rest =>
    match decrypt_master_key E password slot with
    | .ok master_key => ([], .ok master_key)
    | .error .incorrectPassword => tryDecryptLoop E password rest
    | .error (.paramError e) =>
      let r := tryDecryptLoop E password rest
      (e :: r.1, r.2)

/-- Slot resolution (`try_decrypt_master_key`, crypto.rs lines 112-136): keep
only password slots, as the source's `filter` with
`matches!(s.slot_type, SlotType::Password(_))`, then trial-decrypt them in
header order. -/
def try_decrypt_master_key (E : Externals) (password : List Nat)
    (slots : List Slot) : List String × Except String (List Nat) :=
  tryDecryptLoop E password (slots.filter fun s => s.slot_type.isPassword)

/-- Use the decrypted master key to decrypt the database blob
(`decrypt_database`, crypto.rs lines 146-169): base64-decode the blob, append
the hex-decoded database tag, decrypt with the master key and the hex-decoded
nonce, UTF-8-decode and JSON-parse the plaintext. Error strings stand for the
`Display` of the library errors propagated by `?`. -/
def decrypt_database (E : Externals) (params : KeyParams) (master_key : List Nat)
    (encrypted_db : String) : Except String Database :=
  match E.b64Decode encrypted_db with
  | none => .error "base64 decode error"
  | some db_contents_cipher =>
    match fromHex params.tag with
    | none => .error "hex decode error"
    | some db_tag =>
      match fromHex params.nonce with
      | none => .error "hex decode error"
      | some db_nonce =>
        match E.aesGcmDecrypt master_key db_nonce (db_contents_cipher ++ db_tag) with
        | none => .error "Failed to decrypt database"
        | some db_contents =>
          match E.utf8Decode db_contents with
          | none => .error "invalid utf-8"
          | some db_contents_str =>
            match E.parseDatabase db_contents_str with
            | none => .error "malformed database JSON"
            | some db => .ok db

/-- Decrypt an encrypted vault (`decrypt`, crypto.rs lines 171-182): require
`slots` and `params` in the header, resolve the master key, require an
encrypted database payload, then decrypt the database. The resolution loop's
log goes to stderr in the source and is discarded here (`.2`). -/
def decrypt (E : Externals) (password : List Nat) (vault : Vault) :
    Except String Database :=
  match vault.header.slots with
  | none => .error "No slots in header"
  | some slots =>
    match vault.header.params with
    | none => .error "No params in header"
    | some params =>
      match (try_decrypt_master_key E password slots).2 with
      | .error e => .error e
      | .ok master_key =>
        match vault.db with
        | .encrypted encrypted_db => decrypt_database E params master_key encrypted_db
        | .plain _ => .error "Database in vault is not encrypted"

/-- Extract the database from a parsed vault (`extract_database`, lib.rs lines
75-101): reject outer versions other than 1, parse the raw `db` string as JSON
when the vault is not encrypted, otherwise decrypt. The source fetches the
password inside this function via `get_password()` (out of scope per spec
section 1); it is threaded as a parameter. The source writes the branch as
`if !vault.is_encrypted() \x7b parse \x7d else \x7b decrypt \x7d`; the two
arms are swapped here with the condition un-negated. -/
def extract_database (E : Externals) (password : List Nat) (vault : Vault) :
    Except String Database :=
  if vault.version ≠ 1 then
    .error ("Unsupported vault version: " ++ toString vault.version)
  else if vault.is_encrypted then
    decrypt E password vault
  else
    match E.parseDatabase vault.db.raw with
    | some db => .ok db
    | none => .error "Failed to parse JSON"

/-- Parse a vault backup into its entry list (`parse_aegis_vault`, lib.rs
lines 59-73): JSON-parse the document, extract the database (propagating its
error via `?`), then reject inner database versions other than 2. -/
def parse_aegis_vault (E : Externals) (password : List Nat)
    (vault_backup_contents : String) : Except String (List Entry) :=
  match E.parseVault vault_backup_contents with
  | none => .error "Failed to parse vault file"
  | some vault =>
    match extract_database E password vault with
    | .error e => .error e
    | .ok db =>
      if db.version ≠ 2 then
        .error ("Unsupported database version: " ++ toString db.version)
      else .ok db.entries

/-- Boolean error test on `Except`, used to phrase "this slot fails". -/
def resultIsErr {ε α : Type} : Except ε α → Bool
  | .error _ => true
  | .ok _ => false

/-- Messages the resolution loop logs for a run of slots: exactly the
`ParamError` payloads, in order. -/
def paramLogs (E : Externals) (password : List Nat) (l : List Slot) : List String :=
  l.filterMap fun s =>
    match decrypt_master_key E password s with
    | .error (.paramError e) => some e
    | _ => none

/-- Database-level AES-GCM parameters used by the concrete test vaults. -/
def ps0 : KeyParams := ⟨"0b", "0c"⟩

/-- Slot-level AES-GCM parameters of the concrete test slots. -/
def goodKP : KeyParams := ⟨"0a", "02"⟩

/-- Scrypt parameters of a well-formed password slot: `n = 2^14`. -/
def goodPwSlot : PasswordSlot := ⟨16384, 8, 1, "00010203"⟩

/-- A password slot that authenticates under `dummyExternals`. -/
def slotGood : Slot := ⟨.password goodPwSlot, "01", goodKP⟩

/-- A password slot whose salt is not valid hex, so key derivation fails with
a parameter error. -/
def badSaltSlot : Slot := ⟨.password ⟨16384, 8, 1, "zz"⟩, "01", goodKP⟩

/-- A password slot whose wrapped key does not verify under `dummyExternals`,
i.e. a wrong-password slot. -/
def wrongPwSlot : Slot := ⟨.password goodPwSlot, "03", goodKP⟩

/-- A raw (type 0) slot. -/
def rawSlot : Slot := ⟨.raw, "01", goodKP⟩

/-- A biometric (type 2) slot. -/
def bioSlot : Slot := ⟨.biometric, "01", goodKP⟩

/-- A password slot with a non-power-of-two scrypt work factor `n = 48`. -/
def nonPow2Slot : PasswordSlot := ⟨48, 8, 1, "00010203"⟩

/-- An encrypted test vault with one authenticating slot. -/
def vault7 : Vault := ⟨1, ⟨some [slotGood], some ps0⟩, .encrypted "AQ=="⟩

/-- An otherwise-valid encrypted vault with unsupported outer version 2. -/
def vaultV2 : Vault := ⟨2, ⟨some [slotGood], some ps0⟩, .encrypted "AQ=="⟩

/-- A plaintext vault whose inline database carries inner version 3. -/
def vaultPlain3 : Vault := ⟨1, ⟨none, none⟩, .plain "D3"⟩

/-- A plaintext vault whose inline database carries inner version 2. -/
def vaultPlain2 : Vault := ⟨1, ⟨none, none⟩, .plain "D2"⟩

/-- An encrypted vault whose header lacks `slots`. -/
def vaultNoSlots : Vault := ⟨1, ⟨none, some ps0⟩, .encrypted "AQ=="⟩

/-- An encrypted vault whose header lacks `params`. -/
def vaultNoParams : Vault := ⟨1, ⟨some [slotGood], none⟩, .encrypted "AQ=="⟩

/-- A concrete implementation of the external interface used to instantiate
the theorems on closed inputs: the KDF concatenates its inputs, the cipher
verifies exactly the ciphertext-with-tag `[1, 2]`, the vault parser knows the
single document `"V"`, and the database parser knows the documents `"D3"` and
`"D2"`. -/
def dummyExternals : Externals where
  scryptHash := fun pw salt logn r p => pw ++ salt ++ [logn, r, p]
  aesGcmDecrypt := fun _ _ ct => if ct = [1, 2] then some [170] else none
  parseVault := fun s => if s = "V" then some vaultPlain3 else none
  parseDatabase := fun s =>
    if s = "D3" then some ⟨3, []⟩ else if s = "D2" then some ⟨2, []⟩ else none
  b64Decode := fun s => if s = "AQ==" then some [1] else none
  utf8Decode := fun _ => none

/-- Appending strings concatenates their character data. -/
theorem string_append_data (a b : String) : (a ++ b).data = a.data ++ b.data := by
  cases a
  cases b
  rfl

/-- No string with the derive-key failure prefix is the non-password-slot
message: their first characters differ. -/
theorem derive_prefix_ne (e : String) :
    "Failed to derive key: " ++ e ≠ "Slot is not a password slot" := by
  intro h
  have h2 := congrArg String.data h
  rw [string_append_data] at h2
  have hF : "Failed to derive key: ".data = 'F' :: "ailed to derive key: ".data := rfl
  have hS : "Slot is not a password slot".data
      = 'S' :: "lot is not a password slot".data := rfl
  rw [hF, hS, List.cons_append] at h2
  injection h2 with hc _
  exact absurd hc (by decide)

/-- A slot from which `decrypt_master_key` recovers a key is a password
slot: all other variants are rejected with a parameter error. -/
theorem ok_implies_password (E : Externals) (pw : List Nat) (s : Slot)
    (k : List Nat) (h : decrypt_master_key E pw s = .ok k) :
    s.slot_type.isPassword = true := by
  obtain ⟨st, key, kp⟩ := s
  cases st with
  | password ps => rfl
  | raw => simp [decrypt_master_key] at h
  | biometric => simp [decrypt_master_key] at h

/-- A prefix of slots that all fail contributes exactly its parameter-error
log entries, and the loop's outcome is that of the remaining slots. -/
theorem loop_all_err_append (E : Externals) (pw : List Nat) (l1 l2 : List Slot)
    (h : ∀ s ∈ l1, resultIsErr (decrypt_master_key E pw s) = true) :
    tryDecryptLoop E pw (l1 ++ l2) =
      (paramLogs E pw l1 ++ (tryDecryptLoop E pw l2).1, (tryDecryptLoop E pw l2).2) := by
  induction l1 with
  | nil => simp [paramLogs]
  | cons s rest ih =>
    have hs := h s (by simp)
    have hr : ∀ t ∈ rest, resultIsErr (decrypt_master_key E pw t) = true := by
      intro t ht
      exact h t (by simp [ht])
    have ih2 := ih hr
    cases hd : decrypt_master_key E pw s with
    | ok k =>
      rw [hd] at hs
      simp [resultIsErr] at hs
    | error err =>
      cases err with
      | incorrectPassword =>
        simp only [List.cons_append, tryDecryptLoop, hd, List.append_eq]
        rw [ih2]
        simp [paramLogs, List.filterMap_cons, hd]
      | paramError e =>
        simp only [List.cons_append, tryDecryptLoop, hd, List.append_eq]
        rw [ih2]
        simp [paramLogs, List.filterMap_cons, hd]

/-- On a password slot, `decrypt_master_key` never produces the parameter
error reserved for non-password slots: every error message of the password
branch differs from it. -/
theorem password_param_error_message (E : Externals) (pw : List Nat) (s : Slot)
    (e : String) (hp : s.slot_type.isPassword = true)
    (he : decrypt_master_key E pw s = .error (.paramError e)) :
    e ≠ "Slot is not a password slot" := by
  obtain ⟨st, key, kp⟩ := s
  cases st with
  | raw => simp [SlotType.isPassword] at hp
  | biometric => simp [SlotType.isPassword] at hp
  | password ps =>
    cases hd : derive_key E pw ps with
    | error d =>
      simp [decrypt_master_key, hd] at he
      subst he
      exact derive_prefix_ne d
    | ok derived =>
      cases hn : fromHex kp.nonce with
      | none =>
        simp [decrypt_master_key, hd, hn] at he
        subst he
        decide
      | some nonce =>
        cases hk2 : fromHex key with
        | none =>
          simp [decrypt_master_key, hd, hn, hk2] at he
          subst he
          decide
        | some mkc =>
          cases ht : fromHex kp.tag with
          | none =>
            simp [decrypt_master_key, hd, hn, hk2, ht] at he
            subst he
            decide
          | some tg =>
            cases hg : E.aesGcmDecrypt derived nonce (mkc ++ tg) with
            | none => simp [decrypt_master_key, hd, hn, hk2, ht, hg] at he
            | some mk2 => simp [decrypt_master_key, hd, hn, hk2, ht, hg] at he

/-- Over a list of password slots, the loop never logs the non-password-slot
message. -/
theorem loop_no_slot_msg (E : Externals) (pw : List Nat) (l : List Slot)
    (h : ∀ s ∈ l, s.slot_type.isPassword = true) :
    "Slot is not a password slot" ∉ (tryDecryptLoop E pw l).1 := by
  induction l with
  | nil => simp [tryDecryptLoop]
  | cons s rest ih =>
    have hp := h s (by simp)
    have hr : ∀ t ∈ rest, t.slot_type.isPassword = true := by
      intro t ht
      exact h t (by simp [ht])
    cases hd : decrypt_master_key E pw s with
    | ok k => simp [tryDecryptLoop, hd]
    | error err =>
      cases err with
      | incorrectPassword =>
        simp only [tryDecryptLoop, hd]
        exact ih hr
      | paramError e =>
        simp only [tryDecryptLoop, hd, List.mem_cons, not_or]
        exact ⟨fun hc => password_param_error_message E pw s e hp hd hc.symm, ih hr⟩

/-- C1: contrary to the claim, key derivation does not fail with a parameter
error on a slot whose work factor is not a power of two. On the slot with
`n = 48` (not a power of two, since `2^5 = 32 < 48 < 64 = 2^6`), the source's
`(slot.n as f32).log2() as u8` silently truncates the cost exponent to 5, the
scrypt parameters `(5, 8, 1)` are accepted, and derivation succeeds with the
smaller cost for every external KDF and every password. -/
theorem derive_key_truncates_nonpow2 (E : Externals) (pw : List Nat) :
    derive_key E pw nonPow2Slot = .ok (E.scryptHash pw [0, 1, 2, 3] 5 8 1) := rfl

/-- C2: if every slot before `s` fails and `s` recovers master key `k`, slot
resolution on `pre ++ s :: post` returns `k` with a result and log that are
those of `pre ++ [s]` alone — the slots after the first success contribute
nothing (short-circuit), and the failures before it do not abort
resolution. -/
theorem try_decrypt_first_success (E : Externals) (pw k : List Nat)
    (pre post : List Slot) (s : Slot)
    (hpre : ∀ t ∈ pre, resultIsErr (decrypt_master_key E pw t) = true)
    (hk : decrypt_master_key E pw s = .ok k) :
    try_decrypt_master_key E pw (pre ++ s :: post) =
        try_decrypt_master_key E pw (pre ++ [s]) ∧
      (try_decrypt_master_key E pw (pre ++ [s])).2 = .ok k := by
  have hp := ok_implies_password E pw s k hk
  have hfil : ∀ t ∈ pre.filter (fun u => u.slot_type.isPassword),
      resultIsErr (decrypt_master_key E pw t) = true := by
    intro t ht
    exact hpre t (List.mem_filter.1 ht).1
  have hloop : ∀ X, tryDecryptLoop E pw (s :: X) = ([], .ok k) := by
    intro X
    simp [tryDecryptLoop, hk]
  have e1 : try_decrypt_master_key E pw (pre ++ s :: post) =
      (paramLogs E pw (pre.filter fun u => u.slot_type.isPassword), .ok k) := by
    unfold try_decrypt_master_key
    rw [List.filter_append]
    have hcons : (s :: post).filter (fun u => u.slot_type.isPassword) =
        s :: post.filter (fun u => u.slot_type.isPassword) := by
      simp [List.filter_cons, hp]
    rw [hcons, loop_all_err_append E pw _ _ hfil, hloop]
    simp
  have e2 : try_decrypt_master_key E pw (pre ++ [s]) =
      (paramLogs E pw (pre.filter fun u => u.slot_type.isPassword), .ok k) := by
    unfold try_decrypt_master_key
    rw [List.filter_append]
    have hone : [s].filter (fun u => u.slot_type.isPassword) = [s] := by
      simp [List.filter_cons, hp]
    rw [hone, loop_all_err_append E pw _ _ hfil, hloop]
    simp
  exact ⟨e1.trans e2.symm, by rw [e2]⟩

/-- Witness for C2: with the first slot failing on bad salt hex and the second
authenticating, resolution ignores a third slot and returns the second slot's
key. -/
theorem try_decrypt_first_success_witness :
    try_decrypt_master_key dummyExternals [97] ([badSaltSlot] ++ slotGood :: [wrongPwSlot]) =
        try_decrypt_master_key dummyExternals [97] ([badSaltSlot] ++ [slotGood]) ∧
      (try_decrypt_master_key dummyExternals [97] ([badSaltSlot] ++ [slotGood])).2 = .ok [170] :=
  try_decrypt_first_success dummyExternals [97] [170] [badSaltSlot] [wrongPwSlot] slotGood
    (by decide) rfl

/-- C3: a password slot whose parameters are malformed (its
`decrypt_master_key` is a `ParamError`) has its message recorded in the
resolution log, and resolution continues on the remaining slots with an
unchanged outcome — the parameter error never aborts the whole resolution. -/
theorem try_decrypt_param_error_continues (E : Externals) (pw : List Nat)
    (s : Slot) (rest : List Slot) (e : String)
    (hp : s.slot_type.isPassword = true)
    (he : decrypt_master_key E pw s = .error (.paramError e)) :
    try_decrypt_master_key E pw (s :: rest) =
      (e :: (try_decrypt_master_key E pw rest).1,
        (try_decrypt_master_key E pw rest).2) := by
  unfold try_decrypt_master_key
  simp [List.filter_cons, hp, tryDecryptLoop, he]

/-- Witness for C3: the bad-salt slot's derive failure is logged and the
following slot still resolves. -/
theorem try_decrypt_param_error_continues_witness :
    try_decrypt_master_key dummyExternals [97] (badSaltSlot :: [slotGood]) =
      ("Failed to derive key: Failed to decode salt hex"
          :: (try_decrypt_master_key dummyExternals [97] [slotGood]).1,
        (try_decrypt_master_key dummyExternals [97] [slotGood]).2) :=
  try_decrypt_param_error_continues dummyExternals [97] badSaltSlot [slotGood]
    "Failed to derive key: Failed to decode salt hex" rfl rfl

/-- C4: slot resolution is unchanged when the non-password (`Raw`,
`Biometric`) slots are removed — only `Password` slots are attempted — and
when every password slot fails it returns the
`Failed to decrypt master key` error. -/
theorem try_decrypt_exhausts_password_slots (E : Externals) (pw : List Nat)
    (slots : List Slot)
    (h : ∀ s ∈ slots, s.slot_type.isPassword = true →
      resultIsErr (decrypt_master_key E pw s) = true) :
    try_decrypt_master_key E pw slots =
        try_decrypt_master_key E pw (slots.filter fun s => s.slot_type.isPassword) ∧
      (try_decrypt_master_key E pw slots).2 = .error "Failed to decrypt master key" := by
  constructor
  · unfold try_decrypt_master_key
    rw [List.filter_filter]
    simp
  · unfold try_decrypt_master_key
    have hfil : ∀ s ∈ slots.filter (fun u => u.slot_type.isPassword),
        resultIsErr (decrypt_master_key E pw s) = true := by
      intro t ht
      have hm := List.mem_filter.1 ht
      exact h t hm.1 hm.2
    have happ := loop_all_err_append E pw
      (slots.filter fun u => u.slot_type.isPassword) [] hfil
    rw [List.append_nil] at happ
    rw [happ]
    simp [tryDecryptLoop]

/-- Witness for C4: raw and biometric slots together with one wrong-password
slot exhaust without success and fail with the recovery error. -/
theorem try_decrypt_exhausts_password_slots_witness :
    try_decrypt_master_key dummyExternals [97] [rawSlot, bioSlot, wrongPwSlot] =
        try_decrypt_master_key dummyExternals [97]
          ([rawSlot, bioSlot, wrongPwSlot].filter fun s => s.slot_type.isPassword) ∧
      (try_decrypt_master_key dummyExternals [97] [rawSlot, bioSlot, wrongPwSlot]).2 =
        .error "Failed to decrypt master key" :=
  try_decrypt_exhausts_password_slots dummyExternals [97] [rawSlot, bioSlot, wrongPwSlot]
    (by decide)

/-- C5: a parsed vault whose outer version is not 1 makes database extraction
fail with the unsupported-version error naming the observed version, for every
password and every implementation of the external primitives — so before any
key derivation or decryption. -/
theorem extract_database_unsupported_version (E : Externals) (pw : List Nat)
    (vault : Vault) (h : vault.version ≠ 1) :
    extract_database E pw vault =
      .error ("Unsupported vault version: " ++ toString vault.version) := by
  simp [extract_database, h]

/-- Witness for C5: an otherwise-valid encrypted vault with outer version 2
is rejected. -/
theorem extract_database_unsupported_version_witness :
    extract_database dummyExternals [97] vaultV2 = .error "Unsupported vault version: 2" :=
  (extract_database_unsupported_version dummyExternals [97] vaultV2 (by decide)).trans rfl

/-- C6: whenever the database is successfully extracted from a vault
(plaintext or encrypted) but carries an inner version other than 2,
`parse_aegis_vault` fails with the unsupported-version error naming the
observed version and never returns the entry list. -/
theorem parse_aegis_vault_inner_version (E : Externals) (pw : List Nat)
    (s : String) (vault : Vault) (db : Database)
    (h1 : E.parseVault s = some vault)
    (h2 : extract_database E pw vault = .ok db)
    (h3 : db.version ≠ 2) :
    parse_aegis_vault E pw s =
      .error ("Unsupported database version: " ++ toString db.version) := by
  simp [parse_aegis_vault, h1, h2, h3]

/-- Witness for C6: a plaintext vault with inner database version 3 is
rejected after extraction. -/
theorem parse_aegis_vault_inner_version_witness :
    parse_aegis_vault dummyExternals [97] "V" = .error "Unsupported database version: 3" :=
  (parse_aegis_vault_inner_version dummyExternals [97] "V" vaultPlain3 ⟨3, []⟩
    rfl rfl (by decide)).trans rfl

/-- C7: on the encrypted path with a recovered master key, `decrypt` is
exactly the database pipeline: base64-decode the db string, append the
hex-decoded database tag, call AES-256-GCM with the master key and the
hex-decoded nonce, then UTF-8-decode and JSON-parse; in particular when tag
verification fails (`none`) the whole operation fails with the fatal
`Failed to decrypt database` error and no entries are returned. -/
theorem decrypt_database_pipeline (E : Externals) (pw mk ct tag nonce : List Nat)
    (vault : Vault) (ss : List Slot) (ps : KeyParams) (edb : String)
    (h1 : vault.header.slots = some ss)
    (h2 : vault.header.params = some ps)
    (h3 : (try_decrypt_master_key E pw ss).2 = .ok mk)
    (h4 : vault.db = .encrypted edb)
    (h5 : E.b64Decode edb = some ct)
    (h6 : fromHex ps.tag = some tag)
    (h7 : fromHex ps.nonce = some nonce) :
    decrypt E pw vault =
      match E.aesGcmDecrypt mk nonce (ct ++ tag) with
      | none => .error "Failed to decrypt database"
      | some pt =>
        match E.utf8Decode pt with
        | none => .error "invalid utf-8"
        | some str =>
          match E.parseDatabase str with
          | none => .error "malformed database JSON"
          | some db => .ok db := by
  simp [decrypt, h1, h2, h3, h4, decrypt_database, h5, h6, h7]

/-- Witness for C7: a vault whose database ciphertext does not verify under
the recovered master key fails fatally. -/
theorem decrypt_database_pipeline_witness :
    decrypt dummyExternals [97] vault7 = .error "Failed to decrypt database" :=
  (decrypt_database_pipeline dummyExternals [97] [170] [1] [12] [11] vault7 [slotGood] ps0
    "AQ==" rfl rfl rfl rfl rfl rfl rfl).trans rfl

/-- C8: a vault that is not encrypted has its raw `db` string parsed directly
as a database — yielding exactly the parsed entries and, on malformed JSON,
the `Failed to parse JSON` format error — and the result depends only on the
JSON parser, not on the password, the KDF or the cipher. -/
theorem extract_database_plaintext (E : Externals) (pw : List Nat) (vault : Vault)
    (h1 : vault.version = 1) (h2 : vault.is_encrypted = false) :
    extract_database E pw vault =
      match E.parseDatabase vault.db.raw with
      | some db => .ok db
      | none => .error "Failed to parse JSON" := by
  simp [extract_database, h1, h2]

/-- Witness for C8: the plaintext vault with inner version 2 parses directly
to its inline database. -/
theorem extract_database_plaintext_witness :
    extract_database dummyExternals [97] vaultPlain2 = .ok ⟨2, []⟩ :=
  (extract_database_plaintext dummyExternals [97] vaultPlain2 rfl rfl).trans rfl

/-- C9: `decrypt` demands a structurally consistent header before anything
else: with `slots` absent it fails with `No slots in header`, and with `slots`
present but `params` absent it fails with `No params in header`, in both cases
for every password and every implementation of the external primitives — so
before any slot trial or cipher call. -/
theorem decrypt_requires_header_fields (E : Externals) (pw : List Nat)
    (vault : Vault) :
    (vault.header.slots = none → decrypt E pw vault = .error "No slots in header") ∧
      (∀ ss, vault.header.slots = some ss → vault.header.params = none →
        decrypt E pw vault = .error "No params in header") := by
  constructor
  · intro h
    simp [decrypt, h]
  · intro ss h1 h2
    simp [decrypt, h1, h2]

/-- Witness for C9: the two structurally inconsistent headers are rejected
with their respective errors. -/
theorem decrypt_requires_header_fields_witness :
    decrypt dummyExternals [97] vaultNoSlots = .error "No slots in header" ∧
      decrypt dummyExternals [97] vaultNoParams = .error "No params in header" :=
  ⟨(decrypt_requires_header_fields dummyExternals [97] vaultNoSlots).1 rfl,
    (decrypt_requires_header_fields dummyExternals [97] vaultNoParams).2 [slotGood] rfl rfl⟩

/-- C10: the resolution loop pre-filters on the `Password` tag, so the
`Slot is not a password slot` branch of `decrypt_master_key` is unreachable
from it: that message never appears in the resolution log, for any slot list,
password and external primitives. -/
theorem try_decrypt_no_non_password_error (E : Externals) (pw : List Nat)
    (slots : List Slot) :
    "Slot is not a password slot" ∉ (try_decrypt_master_key E pw slots).1 := by
  unfold try_decrypt_master_key
  apply loop_no_slot_msg
  intro s hs
  exact (List.mem_filter.1 hs).2

/-- Witness for C10: a raw slot next to a malformed password slot logs only
the derive failure, never the non-password message. -/
theorem try_decrypt_no_non_password_error_witness :
    "Slot is not a password slot" ∉
      (try_decrypt_master_key dummyExternals [97] [rawSlot, badSaltSlot]).1 :=
  try_decrypt_no_non_password_error dummyExternals [97] [rawSlot, badSaltSlot]

end Aegis
